import Mathlib

/-!
Shallow embedding of `xarrayutils/plotting.py` (dhruvbalwada/xarrayutils).

Coordinates and all numeric data are modelled as rationals.  Matplotlib is
modelled by explicit state records (axis limits, tick lists, …) and by traces
of drawing calls (`PlotCall`, `TsEvent`).  Python exceptions are modelled by an
`Option PyError` component of the result: `some e` means the exception `e` was
raised at that point, and the trace component holds exactly the drawing calls
issued before the raise.  The external `gsw` equation-of-state library is
modelled by function parameters.
-/

namespace Xarrayutils

/-- Python exceptions raised by the plotting helpers. -/
inductive PyError
  | valueError (msg : String)
  | runtimeError (msg : String)
deriving DecidableEq, Repr

/-- Python values that can be passed for `split_detection` in `box_plot`
(the source's default is the *string* `'True'`).  `truthy` is Python's
truth test on them: a string is truthy iff non-empty, a bool is itself. -/
inductive PyVal
  | str (s : String)
  | bool (b : Bool)
deriving DecidableEq, Repr

def PyVal.truthy : PyVal → Bool
  | .str s => !s.isEmpty
  | .bool b => b

/-- A drawing call issued to matplotlib: `ax.plot(xs, ys)`,
`ax.fill_between(x, lo, hi)` or `ax.fill_betweenx(x, lo, hi)`. -/
inductive PlotCall
  | plot (xs ys : List ℚ)
  | fill_between (x lo hi : List ℚ)
  | fill_betweenx (x lo hi : List ℚ)
deriving DecidableEq, Repr

/-- `x_split` flag of `box_plot` (plotting.py lines 108, 114-116): starts
`False`, set when split detection is on and `np.diff([box[0], box[1]]) < 0`,
i.e. `box[1] - box[0] < 0`. -/
def x_split (box : List ℚ) (split_detection : PyVal) : Bool :=
  split_detection.truthy && decide (box.getD 1 0 - box.getD 0 0 < 0)

/-- `y_split` flag of `box_plot` (plotting.py lines 109, 118-119): starts
`False`, set when split detection is on and `box[3] - box[2] < 0`. -/
def y_split (box : List ℚ) (split_detection : PyVal) : Bool :=
  split_detection.truthy && decide (box.getD 3 0 - box.getD 2 0 < 0)

/-- `box_plot(box, ax=None, split_detection='True', **kwargs)`
(plotting.py lines 90-150).  `xlim`/`ylim` are the current axis limits the
source reads with `plt.gca().get_xlim()` / `get_ylim()`; they are read only
after the length check, which raises `RuntimeError` for a box whose length is
not 4.  The result is the list of `ax.plot` calls issued, paired with the
exception raised (if any). -/
def box_plot (box : List ℚ) (xlim ylim : ℚ × ℚ)
    (split_detection : PyVal := .str "True") : List PlotCall × Option PyError :=
  if box.length ≠ 4 then
    ([], some (.runtimeError
      "'box' must be a 4 element np.array, describing the box corners [x1, x2, y1, y2]"))
  else
    let xs := x_split box split_detection
    let ys := y_split box split_detection
    let b0 := box.getD 0 0
    let b1 := box.getD 1 0
    let b2 := box.getD 2 0
    let b3 := box.getD 3 0
    if ys && !xs then
      ([.plot [b0, b0, b1, b1, b0] [ylim.2, b2, b2, ylim.2, ylim.2],
        .plot [b0, b0, b1, b1, b0] [ylim.1, b3, b3, ylim.1, ylim.1]], none)
    else if xs && !ys then
      ([.plot [xlim.2, b0, b0, xlim.2, xlim.2] [b2, b2, b3, b3, b2],
        .plot [xlim.1, b1, b1, xlim.1, xlim.1] [b2, b2, b3, b3, b2]], none)
    else if xs && ys then
      ([.plot [xlim.2, b0, b0] [b2, b2, ylim.2],
        .plot [xlim.1, b1, b1] [b2, b2, ylim.2],
        .plot [xlim.2, b0, b0] [b3, b3, ylim.1],
        .plot [xlim.1, b1, b1] [b3, b3, ylim.1]], none)
    else
      ([.plot [b0, b0, b1, b1, b0] [b2, b3, b3, b2, b2]], none)

/-- The x- and y-limits of a matplotlib axes object, for `center_lim`. -/
structure AxLimits where
  xlim : ℚ × ℚ
  ylim : ℚ × ℚ
deriving DecidableEq, Repr

/-- `abs(np.array(lim)).max()` for a 2-element limit pair. -/
def center_half (lim : ℚ × ℚ) : ℚ := max |lim.1| |lim.2|

/-- `center_lim(ax, which='y')` (plotting.py lines 7-18).  Sets the chosen
axis limits to `np.array([-1, 1]) * abs(lim).max()`; for `'xy'`/`'yx'` the
source recurses with `'x'` and then `'y'` (inlined here); any other `which`
raises `ValueError` and leaves the limits untouched. -/
def center_lim (ax : AxLimits) (which : String := "y") : AxLimits × Option PyError :=
  if which = "y" then
    ({ ax with ylim := (-center_half ax.ylim, center_half ax.ylim) }, none)
  else if which = "x" then
    ({ ax with xlim := (-center_half ax.xlim, center_half ax.xlim) }, none)
  else if which = "xy" ∨ which = "yx" then
    let ax1 := { ax with xlim := (-center_half ax.xlim, center_half ax.xlim) }
    ({ ax1 with ylim := (-center_half ax1.ylim, center_half ax1.ylim) }, none)
  else
    (ax, some (.valueError ("`which` is not in (`x,`y`, `xy`) found " ++ which)))

/-- The y-axis state of a matplotlib axes object, for `depth_logscale`:
scale (name and `linthreshy`), ticks, tick labels, and whether the axis
direction is currently inverted (`invert_yaxis` toggles it). -/
structure DepthAxis where
  yscale : Option (String × ℚ)
  yticks : List ℤ
  yticklabels : List String
  yinverted : Bool
deriving DecidableEq, Repr

/-- `depth_logscale(ax, yscale=400, ticks=None)` (plotting.py lines 21-28):
symlog scale with `linthreshy=yscale`, default ticks
`[0, 100, 250, 500, 1000, 2500, 5000]`, labels `str(a)` for each tick,
then `invert_yaxis()`. -/
def depth_logscale (ax : DepthAxis) (yscale : ℚ := 400)
    (ticks : Option (List ℤ) := none) : DepthAxis :=
  let t := ticks.getD [0, 100, 250, 500, 1000, 2500, 5000]
  { ax with
    yscale := some ("symlog", yscale)
    yticks := t
    yticklabels := t.map toString
    yinverted := !ax.yinverted }

/-- `plot_line_shaded_std(x, y, std_y, horizontal=True, ...)`
(plotting.py lines 31-87): a line plot and a shaded band between
`y - std_y` and `y + std_y` (elementwise); when `horizontal` is false the
line is `plot(y, x)` and the band is drawn with `fill_betweenx`. -/
def plot_line_shaded_std (x y std_y : List ℚ) (horizontal : Bool := true) :
    List PlotCall :=
  let lower := List.zipWith (fun a b => a - b) y std_y
  let upper := List.zipWith (fun a b => a + b) y std_y
  if horizontal then
    [.plot x y, .fill_between x lower upper]
  else
    [.plot y x, .fill_betweenx x lower upper]

/-- `np.linspace(start, stop, num)` with the default `endpoint=True`:
`num` evenly spaced values from `start` to `stop`. -/
def linspace (start stop : ℚ) (num : ℕ) : List ℚ :=
  if num ≤ 1 then List.replicate num start
  else (List.range num).map fun i : ℕ =>
    start + (stop - start) * (i : ℚ) / ((num : ℚ) - 1)

/-- `np.arange(start, stop, step)` for a nonzero step: the values
`start + i * step` for `0 ≤ i < ⌈(stop - start) / step⌉`. -/
def arange (start stop step : ℚ) : List ℚ :=
  (List.range (⌈(stop - start) / step⌉.toNat)).map fun i : ℕ =>
    start + step * (i : ℚ)

/-- `arr.min()` of a non-empty array flattened to a list (junk 0 on `[]`). -/
def listMin : List ℚ → ℚ
  | [] => 0
  | a :: t => t.foldl min a

/-- `arr.max()` of a non-empty array flattened to a list (junk 0 on `[]`). -/
def listMax : List ℚ → ℚ
  | [] => 0
  | a :: t => t.foldl max a

/-- The arguments `draw_dens_contours_teos10` hands to `ax.contour(x, y, sig,
levels=levels, ...)`: grid coordinates, the sigma values on the meshgrid
(`sig.get i |>.get j` is the value at `y`-row `i`, `x`-column `j`), and the
contour levels. -/
structure ContourCall where
  x : List ℚ
  y : List ℚ
  sig : List (List ℚ)
  levels : List ℚ
deriving DecidableEq, Repr

/-- `draw_dens_contours_teos10(...)` (plotting.py lines 168-225), the numeric
part: the grid and the level computation handed to `ax.contour`.  `sigma_func`
is `getattr(gsw, sigma)` (the external equation of state, a parameter here);
`xlim`/`ylim` are the current axis limits used as defaults when `slim`/`tlim`
are not given.  With `salt_on_x` the source builds `ss, tt = np.meshgrid(x, y)`
and otherwise `tt, ss = np.meshgrid(x, y)` (so the arguments of `sigma_func`
are swapped), then
`levels = np.arange(np.floor(sig.min()), np.ceil(sig.max()), dens_interval)`. -/
def draw_dens_contours_teos10 (sigma_func : ℚ → ℚ → ℚ) (xlim ylim : ℚ × ℚ)
    (density_grid : ℕ := 20) (dens_interval : ℚ := 1)
    (salt_on_x : Bool := true) (slim tlim : Option (ℚ × ℚ) := none) : ContourCall :=
  let slim1 := if salt_on_x then slim.getD xlim else slim.getD ylim
  let tlim1 := if salt_on_x then tlim.getD ylim else tlim.getD xlim
  let x := linspace slim1.1 slim1.2 density_grid
  let y := linspace tlim1.1 tlim1.2 density_grid
  let sig := if salt_on_x then
      y.map fun yi => x.map fun xj => sigma_func xj yi
    else
      y.map fun yi => x.map fun xj => sigma_func yi xj
  let levels := arange (⌊listMin sig.flatten⌋ : ℚ) (⌈listMax sig.flatten⌉ : ℚ) dens_interval
  { x := x, y := y, sig := sig, levels := levels }

/-- The Python value passed for `color` in `tsdiagram`: `None`, a string, a
tuple, an array-like (list / ndarray / DataArray, which gets a colorbar), or
anything else (which raises `RuntimeError`). -/
inductive ColorArg
  | noColor
  | str (s : String)
  | tup (xs : List ℚ)
  | arr (xs : List ℚ)
  | other
deriving DecidableEq, Repr

/-- Events issued by `tsdiagram`, in order: axis labelling, the scatter call
(with the salinity and temperature values it receives), the delegated
`draw_dens_contours_teos10` call, and `fig.colorbar`. -/
inductive TsEvent
  | set_xlabel (s : String)
  | set_ylabel (s : String)
  | scatter (salt temp : ℚ)
  | density_contours
  | colorbar
deriving DecidableEq, Repr

/-- Lines 253-269 of plotting.py, common to both branches of the teos10
conversion: labels, scatter, density contours, colorbar handling. -/
def tsdiagram_finish (salt temp : ℚ) (salt_label temp_label : String)
    (color : ColorArg) (draw_density_contours draw_cbar add_labels : Bool) :
    List TsEvent × Option PyError :=
  let labelled := if add_labels
    then [TsEvent.set_xlabel salt_label, TsEvent.set_ylabel temp_label] else []
  let base := labelled ++ [TsEvent.scatter salt temp] ++
    (if draw_density_contours then [TsEvent.density_contours] else [])
  if draw_cbar then
    match color with
    | .noColor => (base, none)
    | .str _ => (base, none)
    | .tup _ => (base, none)
    | .arr _ => (base ++ [TsEvent.colorbar], none)
    | .other => (base, some (.runtimeError "`color` not recognized."))
  else (base, none)

/-- `tsdiagram(salt, temp, ...)` (plotting.py lines 228-270).  `sA_from_SP`
and `cT_from_pt` are the external `gsw.SA_from_SP` and `gsw.CT_from_pt`.
With `convert_teos10`, if any of `lon`, `lat`, `pressure` is `None` a
`ValueError` is raised before anything is drawn; otherwise
`salt = gsw.SA_from_SP(salt, pressure, lon, lat)` and
`temp = gsw.CT_from_pt(salt, temp)` (with the already converted salt),
then labels, scatter and the rest follow. -/
def tsdiagram (sA_from_SP : ℚ → ℚ → ℚ → ℚ → ℚ) (cT_from_pt : ℚ → ℚ → ℚ)
    (salt temp : ℚ) (color : ColorArg := .noColor)
    (lon lat pressure : Option ℚ := none)
    (convert_teos10 : Bool := true)
    (draw_density_contours : Bool := true) (draw_cbar : Bool := true)
    (add_labels : Bool := true) : List TsEvent × Option PyError :=
  if convert_teos10 then
    if lon.isNone || lat.isNone || pressure.isNone then
      ([], some (.valueError
        "when converting to teos10 variables, input for lon, lat and pressure is needed"))
    else
      let salt1 := sA_from_SP salt (pressure.getD 0) (lon.getD 0) (lat.getD 0)
      let temp1 := cT_from_pt salt1 temp
      tsdiagram_finish salt1 temp1 "Absolute Salinity [$g/kg$]"
        "Conservative Temperature [$^\x7b\\circ\x7dC$]"
        color draw_density_contours draw_cbar add_labels
  else
    tsdiagram_finish salt temp "Practical Salinity [$g/kg$]"
      "Potential Temperature [$^\x7b\\circ\x7dC$]"
      color draw_density_contours draw_cbar add_labels

/-- The source's default `split_detection='True'` is truthy. -/
theorem truthy_str_True : (PyVal.str "True").truthy = true := by decide

/-- C1: with split detection enabled (a truthy `split_detection`), `box_plot`
detects an x-axis wraparound split exactly when `box[1] - box[0] < 0` and a
y-axis split exactly when `box[3] - box[2] < 0`; no split is detected when
each stop is greater than or equal to its start. -/
theorem C1_split_detection_sign (box : List ℚ) (sd : PyVal)
    (h : sd.truthy = true) :
    (x_split box sd = true ↔ box.getD 1 0 - box.getD 0 0 < 0) ∧
    (y_split box sd = true ↔ box.getD 3 0 - box.getD 2 0 < 0) ∧
    (box.getD 0 0 ≤ box.getD 1 0 → x_split box sd = false) ∧
    (box.getD 2 0 ≤ box.getD 3 0 → y_split box sd = false) := by
  refine ⟨?_, ?_, ?_, ?_⟩ <;>
    simp [x_split, y_split, h, sub_neg, not_lt, imp_self]

/-- Witness for C1 at the box `[170, -170, 0, 5]` with the default
`split_detection='True'`. -/
theorem C1_split_detection_sign_witness :
    PyVal.truthy (.str "True") = true ∧
    ((x_split [(170 : ℚ), -170, 0, 5] (.str "True") = true ↔
        ((-170 : ℚ)) - 170 < 0) ∧
     (y_split [(170 : ℚ), -170, 0, 5] (.str "True") = true ↔
        (5 : ℚ) - 0 < 0) ∧
     ((170 : ℚ) ≤ -170 → x_split [(170 : ℚ), -170, 0, 5] (.str "True") = false) ∧
     ((0 : ℚ) ≤ 5 → y_split [(170 : ℚ), -170, 0, 5] (.str "True") = false)) :=
  ⟨by decide, C1_split_detection_sign [170, -170, 0, 5] (.str "True") (by decide)⟩

/-- C2: with the default split detection, `box_plot` on `[x1, x2, y1, y2]`
draws one closed rectangle through the corners when neither coordinate wraps;
two split segments reaching the current y (resp. x) limits when only the y
(resp. x) coordinate wraps; and four corner segments reaching the axis limits
when both wrap. -/
theorem C2_box_plot_segments (x1 x2 y1 y2 xl0 xl1 yl0 yl1 : ℚ) :
    (x1 ≤ x2 → y1 ≤ y2 →
      box_plot [x1, x2, y1, y2] (xl0, xl1) (yl0, yl1) =
        ([.plot [x1, x1, x2, x2, x1] [y1, y2, y2, y1, y1]], none)) ∧
    (x1 ≤ x2 → y2 < y1 →
      box_plot [x1, x2, y1, y2] (xl0, xl1) (yl0, yl1) =
        ([.plot [x1, x1, x2, x2, x1] [yl1, y1, y1, yl1, yl1],
          .plot [x1, x1, x2, x2, x1] [yl0, y2, y2, yl0, yl0]], none)) ∧
    (x2 < x1 → y1 ≤ y2 →
      box_plot [x1, x2, y1, y2] (xl0, xl1) (yl0, yl1) =
        ([.plot [xl1, x1, x1, xl1, xl1] [y1, y1, y2, y2, y1],
          .plot [xl0, x2, x2, xl0, xl0] [y1, y1, y2, y2, y1]], none)) ∧
    (x2 < x1 → y2 < y1 →
      box_plot [x1, x2, y1, y2] (xl0, xl1) (yl0, yl1) =
        ([.plot [xl1, x1, x1] [y1, y1, yl1],
          .plot [xl0, x2, x2] [y1, y1, yl1],
          .plot [xl1, x1, x1] [y2, y2, yl0],
          .plot [xl0, x2, x2] [y2, y2, yl0]], none)) := by
  refine ⟨fun hx hy => ?_, fun hx hy => ?_, fun hx hy => ?_, fun hx hy => ?_⟩
  · have hx1 : ¬(x2 - x1 < 0) := by rw [sub_neg]; exact not_lt.2 hx
    have hy1 : ¬(y2 - y1 < 0) := by rw [sub_neg]; exact not_lt.2 hy
    simp [box_plot, x_split, y_split, truthy_str_True, hx1, hy1]
  · have hx1 : ¬(x2 - x1 < 0) := by rw [sub_neg]; exact not_lt.2 hx
    have hy1 : y2 - y1 < 0 := by rw [sub_neg]; exact hy
    simp [box_plot, x_split, y_split, truthy_str_True, hx1, hy1]
  · have hx1 : x2 - x1 < 0 := by rw [sub_neg]; exact hx
    have hy1 : ¬(y2 - y1 < 0) := by rw [sub_neg]; exact not_lt.2 hy
    simp [box_plot, x_split, y_split, truthy_str_True, hx1, hy1]
  · have hx1 : x2 - x1 < 0 := by rw [sub_neg]; exact hx
    have hy1 : y2 - y1 < 0 := by rw [sub_neg]; exact hy
    simp [box_plot, x_split, y_split, truthy_str_True, hx1, hy1]

/-- Witness for C2 at the non-wrapping box `[0, 10, 0, 5]`. -/
theorem C2_box_plot_segments_witness :
    (0 : ℚ) ≤ 10 ∧ (0 : ℚ) ≤ 5 ∧
    box_plot [(0 : ℚ), 10, 0, 5] (-180, 180) (-90, 90) =
      ([.plot [0, 0, 10, 10, 0] [0, 5, 5, 0, 0]], none) :=
  ⟨by norm_num, by norm_num,
    (C2_box_plot_segments 0 10 0 5 (-180) 180 (-90) 90).1 (by norm_num) (by norm_num)⟩

/-- C3: `center_lim` with `which='x'` (resp. `'y'`) sets the x (resp. y)
limits to `[-m, m]` for `m` the maximum absolute value of the current limits;
`'xy'` and `'yx'` do this to both axes; any other `which` raises `ValueError`
and changes no limits. -/
theorem C3_center_lim_symmetrize (ax : AxLimits) :
    (center_lim ax "x" =
      ({ ax with xlim := (-max |ax.xlim.1| |ax.xlim.2|, max |ax.xlim.1| |ax.xlim.2|) },
        none)) ∧
    (center_lim ax "y" =
      ({ ax with ylim := (-max |ax.ylim.1| |ax.ylim.2|, max |ax.ylim.1| |ax.ylim.2|) },
        none)) ∧
    (center_lim ax "xy" =
      ({ xlim := (-max |ax.xlim.1| |ax.xlim.2|, max |ax.xlim.1| |ax.xlim.2|),
         ylim := (-max |ax.ylim.1| |ax.ylim.2|, max |ax.ylim.1| |ax.ylim.2|) },
        none)) ∧
    (center_lim ax "yx" = center_lim ax "xy") ∧
    (∀ which : String, which ≠ "x" → which ≠ "y" → which ≠ "xy" → which ≠ "yx" →
      center_lim ax which =
        (ax, some (.valueError ("`which` is not in (`x,`y`, `xy`) found " ++ which)))) := by
  refine ⟨rfl, rfl, rfl, rfl, fun which h1 h2 h3 h4 => ?_⟩
  unfold center_lim
  rw [if_neg h2, if_neg h1, if_neg (by simp [h3, h4])]

/-- Witness for C3 at the unrecognized value `which='z'`. -/
theorem C3_center_lim_symmetrize_witness :
    center_lim ⟨(-3, 5), (-7, 2)⟩ "z" =
      (⟨(-3, 5), (-7, 2)⟩,
        some (.valueError ("`which` is not in (`x,`y`, `xy`) found " ++ "z"))) :=
  (C3_center_lim_symmetrize ⟨(-3, 5), (-7, 2)⟩).2.2.2.2 "z"
    (by decide) (by decide) (by decide) (by decide)

/-- C6: `plot_line_shaded_std` draws a line through `(x, y)` and a band
between `y - std_y` and `y + std_y` with `fill_between`; with
`horizontal=False` it draws the line as `(y, x)` and fills with
`fill_betweenx` between the same bounds. -/
theorem C6_plot_line_shaded_std (x y std_y : List ℚ) :
    plot_line_shaded_std x y std_y true =
      [.plot x y,
       .fill_between x (List.zipWith (fun a b => a - b) y std_y)
         (List.zipWith (fun a b => a + b) y std_y)] ∧
    plot_line_shaded_std x y std_y false =
      [.plot y x,
       .fill_betweenx x (List.zipWith (fun a b => a - b) y std_y)
         (List.zipWith (fun a b => a + b) y std_y)] :=
  ⟨rfl, rfl⟩

/-- C7: `depth_logscale` sets a symlog y-scale with linear threshold
`yscale`, sets the y-ticks to the given list (default
`[0, 100, 250, 500, 1000, 2500, 5000]`) with decimal-string labels, and
inverts the y-axis. -/
theorem C7_depth_logscale (ax : DepthAxis) (yscale : ℚ) (ticks : Option (List ℤ)) :
    (depth_logscale ax yscale ticks).yscale = some ("symlog", yscale) ∧
    (depth_logscale ax yscale ticks).yticks =
      ticks.getD [0, 100, 250, 500, 1000, 2500, 5000] ∧
    (depth_logscale ax yscale ticks).yticklabels =
      (ticks.getD [0, 100, 250, 500, 1000, 2500, 5000]).map toString ∧
    (depth_logscale ax yscale ticks).yinverted = !ax.yinverted :=
  ⟨rfl, rfl, rfl, rfl⟩

/-- C8: `box_plot` raises `RuntimeError` on any box whose length is not 4,
issuing no plot call (the trace is empty, the plotting state unchanged);
on any 4-element box it raises nothing. -/
theorem C8_box_plot_length_check (box : List ℚ) (xlim ylim : ℚ × ℚ) (sd : PyVal) :
    (box.length ≠ 4 → box_plot box xlim ylim sd =
      ([], some (.runtimeError
        "'box' must be a 4 element np.array, describing the box corners [x1, x2, y1, y2]"))) ∧
    (box.length = 4 → (box_plot box xlim ylim sd).2 = none) := by
  constructor
  · intro h
    simp [box_plot, h]
  · intro h
    simp only [box_plot, h]
    norm_num
    split_ifs <;> rfl

/-- Witness for C8 at a 3-element box and at a 4-element box. -/
theorem C8_box_plot_length_check_witness :
    ([(0 : ℚ), 1, 2].length ≠ 4 ∧
      box_plot [(0 : ℚ), 1, 2] (0, 1) (0, 1) (.str "True") =
        ([], some (.runtimeError
          "'box' must be a 4 element np.array, describing the box corners [x1, x2, y1, y2]"))) ∧
    ([(0 : ℚ), 1, 2, 3].length = 4 ∧
      (box_plot [(0 : ℚ), 1, 2, 3] (0, 1) (0, 1) (.str "True")).2 = none) :=
  ⟨⟨by decide,
      (C8_box_plot_length_check [0, 1, 2] (0, 1) (0, 1) (.str "True")).1 (by decide)⟩,
    ⟨by decide,
      (C8_box_plot_length_check [0, 1, 2, 3] (0, 1) (0, 1) (.str "True")).2 (by decide)⟩⟩

/-- C9: `split_detection` defaults to the string `'True'` and is only tested
for truthiness, so detection runs for every truthy value — including the
string `'False'` — and is skipped (plain rectangle, both flags `False`) only
for a falsy value such as the boolean `False`. -/
theorem C9_split_detection_truthy (x1 x2 y1 y2 : ℚ) (xlim ylim : ℚ × ℚ) :
    (PyVal.str "False").truthy = true ∧
    (PyVal.bool false).truthy = false ∧
    box_plot [x1, x2, y1, y2] xlim ylim =
      box_plot [x1, x2, y1, y2] xlim ylim (.str "True") ∧
    (∀ sd : PyVal, sd.truthy = true →
      box_plot [x1, x2, y1, y2] xlim ylim sd =
        box_plot [x1, x2, y1, y2] xlim ylim (.str "True")) ∧
    box_plot [x1, x2, y1, y2] xlim ylim (.bool false) =
      ([.plot [x1, x1, x2, x2, x1] [y1, y2, y2, y1, y1]], none) := by
  refine ⟨by decide, by decide, rfl, fun sd h => ?_, ?_⟩
  · simp only [box_plot, x_split, y_split, h, truthy_str_True]
  · simp [box_plot, x_split, y_split, PyVal.truthy]

/-- Witness for C9: the truthy boolean `True` behaves like the default string. -/
theorem C9_split_detection_truthy_witness :
    PyVal.truthy (.bool true) = true ∧
    box_plot [(170 : ℚ), -170, 0, 5] (-180, 180) (-90, 90) (.bool true) =
      box_plot [(170 : ℚ), -170, 0, 5] (-180, 180) (-90, 90) (.str "True") :=
  ⟨by decide,
    (C9_split_detection_truthy 170 (-170) 0 5 (-180, 180) (-90, 90)).2.2.2.1
      (.bool true) (by decide)⟩

/-- C5: with `convert_teos10` and `lon`, `lat`, `pressure` all provided, the
scatter call receives exactly `gsw.SA_from_SP(salt, pressure, lon, lat)` and
`gsw.CT_from_pt(converted_salt, temp)`; with `convert_teos10` false it
receives the inputs unconverted. -/
theorem C5_tsdiagram_conversion (sA_from_SP : ℚ → ℚ → ℚ → ℚ → ℚ)
    (cT_from_pt : ℚ → ℚ → ℚ) (salt temp lo la pr : ℚ) (color : ColorArg)
    (lon lat pressure : Option ℚ) (ddc dcb al : Bool) :
    (∀ s t : ℚ,
      TsEvent.scatter s t ∈
        (tsdiagram sA_from_SP cT_from_pt salt temp color
          (some lo) (some la) (some pr) true ddc dcb al).1 ↔
      s = sA_from_SP salt pr lo la ∧
      t = cT_from_pt (sA_from_SP salt pr lo la) temp) ∧
    (∀ s t : ℚ,
      TsEvent.scatter s t ∈
        (tsdiagram sA_from_SP cT_from_pt salt temp color
          lon lat pressure false ddc dcb al).1 ↔
      s = salt ∧ t = temp) := by
  constructor <;> intro s t <;>
    cases color <;> cases ddc <;> cases dcb <;> cases al <;>
      simp [tsdiagram, tsdiagram_finish]

/-- C10: with `convert_teos10`, if any of `lon`, `lat`, `pressure` is `None`,
`tsdiagram` raises `ValueError` with an empty event trace: no label is set and
no scatter is drawn, the axes are unchanged. -/
theorem C10_tsdiagram_missing_coords (sA_from_SP : ℚ → ℚ → ℚ → ℚ → ℚ)
    (cT_from_pt : ℚ → ℚ → ℚ) (salt temp : ℚ) (color : ColorArg)
    (lon lat pressure : Option ℚ) (ddc dcb al : Bool)
    (h : lon = none ∨ lat = none ∨ pressure = none) :
    tsdiagram sA_from_SP cT_from_pt salt temp color lon lat pressure
        true ddc dcb al =
      ([], some (.valueError
        "when converting to teos10 variables, input for lon, lat and pressure is needed")) := by
  rcases h with h | h | h <;> subst h <;> simp [tsdiagram]

/-- Witness for C10 with `lat=None`. -/
theorem C10_tsdiagram_missing_coords_witness :
    (some (1 : ℚ) = none ∨ (none : Option ℚ) = none ∨ some (3 : ℚ) = none) ∧
    tsdiagram (fun s _ _ _ => s) (fun _ t => t) 35 10 .noColor
        (some 1) none (some 3) true true true true =
      ([], some (.valueError
        "when converting to teos10 variables, input for lon, lat and pressure is needed")) :=
  ⟨Or.inr (Or.inl rfl),
    C10_tsdiagram_missing_coords (fun s _ _ _ => s) (fun _ t => t) 35 10 .noColor
      (some 1) none (some 3) true true true (Or.inr (Or.inl rfl))⟩

/-- `np.linspace` returns `num` values. -/
theorem linspace_length (a b : ℚ) (n : ℕ) : (linspace a b n).length = n := by
  unfold linspace
  split <;> simp

/-- The `i`-th value of `np.linspace(a, b, n)` for `2 ≤ n`. -/
theorem linspace_getD (a b : ℚ) (n : ℕ) (hn : 2 ≤ n) (i : ℕ) (hi : i < n) :
    (linspace a b n).getD i 0 = a + (b - a) * (i : ℚ) / ((n : ℚ) - 1) := by
  unfold linspace
  rw [if_neg (by omega)]
  rw [List.getD_eq_getElem _ _ (by simpa using hi)]
  rw [List.getElem_map, List.getElem_range]

/-- `np.arange(a, b, s)` has `⌈(b - a) / s⌉` values (clamped at 0). -/
theorem arange_length (a b s : ℚ) :
    (arange a b s).length = (⌈(b - a) / s⌉).toNat := by
  unfold arange
  simp

/-- The `k`-th value of `np.arange(a, b, s)` is `a + s * k`. -/
theorem arange_getD (a b s : ℚ) (k : ℕ) (hk : k < (arange a b s).length) :
    (arange a b s).getD k 0 = a + s * (k : ℚ) := by
  unfold arange at hk ⊢
  rw [List.getD_eq_getElem _ _ hk]
  rw [List.getElem_map, List.getElem_range]

/-- Every value of `np.arange(a, b, s)` with positive step stays below `b`. -/
theorem arange_mem_lt (a b s : ℚ) (hs : 0 < s) (l : ℚ) (hl : l ∈ arange a b s) :
    l < b := by
  unfold arange at hl
  rw [List.mem_map] at hl
  obtain ⟨i, hi, rfl⟩ := hl
  rw [List.mem_range] at hi
  have h1 : (i : ℤ) < ⌈(b - a) / s⌉ := Int.lt_toNat.mp hi
  have h2 : ((i : ℤ) + 1 : ℚ) ≤ (⌈(b - a) / s⌉ : ℚ) := by exact_mod_cast h1
  have h3 : (⌈(b - a) / s⌉ : ℚ) < (b - a) / s + 1 := Int.ceil_lt_add_one _
  have h4 : (i : ℚ) < (b - a) / s := by push_cast at h2; linarith
  have h5 : (i : ℚ) * s < b - a := (lt_div_iff₀ hs).mp h4
  linarith

/-- `getD` through `List.map`, with any defaults, below the length. -/
theorem getD_map_lt {α β : Type} (f : α → β) (l : List α) (i : ℕ)
    (hi : i < l.length) (d : β) (d1 : α) :
    (l.map f).getD i d = f (l.getD i d1) := by
  rw [List.getD_eq_getElem _ _ (by simpa using hi), List.getD_eq_getElem _ _ hi,
    List.getElem_map]

/-- C4: `draw_dens_contours_teos10` evaluates the sigma function on a
`density_grid`-by-`density_grid` meshgrid of `np.linspace` values over the
salt and temperature limits, and the contour levels are the arithmetic
progression starting at `floor(sig.min())` with step `dens_interval`, stopping
below `ceil(sig.max())`. -/
theorem C4_dens_contour_grid_levels (sigma_func : ℚ → ℚ → ℚ) (xlim ylim : ℚ × ℚ)
    (slim tlim : Option (ℚ × ℚ)) (salt_on_x : Bool) (n : ℕ) (dens_interval : ℚ)
    (hn : 2 ≤ n) (hstep : 0 < dens_interval) (c : ContourCall)
    (hc : c = draw_dens_contours_teos10 sigma_func xlim ylim n dens_interval
      salt_on_x slim tlim)
    (sl tl : ℚ × ℚ)
    (hsl : sl = if salt_on_x then slim.getD xlim else slim.getD ylim)
    (htl : tl = if salt_on_x then tlim.getD ylim else tlim.getD xlim) :
    (c.sig.length = n) ∧
    (∀ i : ℕ, i < n → (c.sig.getD i []).length = n) ∧
    (∀ i j : ℕ, i < n → j < n →
      (c.sig.getD i []).getD j 0 =
        (if salt_on_x then
          sigma_func (sl.1 + (sl.2 - sl.1) * (j : ℚ) / ((n : ℚ) - 1))
            (tl.1 + (tl.2 - tl.1) * (i : ℚ) / ((n : ℚ) - 1))
        else
          sigma_func (tl.1 + (tl.2 - tl.1) * (i : ℚ) / ((n : ℚ) - 1))
            (sl.1 + (sl.2 - sl.1) * (j : ℚ) / ((n : ℚ) - 1)))) ∧
    (∀ k : ℕ, k < c.levels.length →
      c.levels.getD k 0 =
        (⌊listMin c.sig.flatten⌋ : ℚ) + dens_interval * (k : ℚ)) ∧
    (∀ l ∈ c.levels, l < (⌈listMax c.sig.flatten⌉ : ℚ)) ∧
    (c.levels.length =
      (⌈((⌈listMax c.sig.flatten⌉ : ℚ) - (⌊listMin c.sig.flatten⌋ : ℚ)) /
        dens_interval⌉).toNat) := by
  subst hc
  have hsig : (draw_dens_contours_teos10 sigma_func xlim ylim n dens_interval
      salt_on_x slim tlim).sig =
      (linspace tl.1 tl.2 n).map fun yi => (linspace sl.1 sl.2 n).map fun xj =>
        if salt_on_x then sigma_func xj yi else sigma_func yi xj := by
    unfold draw_dens_contours_teos10
    cases salt_on_x <;> simp at hsl htl ⊢ <;> rw [hsl, htl]
  have hlev : (draw_dens_contours_teos10 sigma_func xlim ylim n dens_interval
      salt_on_x slim tlim).levels =
      arange
        (⌊listMin (draw_dens_contours_teos10 sigma_func xlim ylim n dens_interval
          salt_on_x slim tlim).sig.flatten⌋ : ℚ)
        (⌈listMax (draw_dens_contours_teos10 sigma_func xlim ylim n dens_interval
          salt_on_x slim tlim).sig.flatten⌉ : ℚ) dens_interval := by
    cases salt_on_x <;> rfl
  refine ⟨?_, ?_, ?_, ?_, ?_, ?_⟩
  · rw [hsig]
    simp [linspace_length]
  · intro i hi
    rw [hsig, getD_map_lt _ _ i (by simp [linspace_length]; omega) _ 0]
    simp [linspace_length]
  · intro i j hi hj
    rw [hsig, getD_map_lt _ _ i (by simp [linspace_length]; omega) _ 0,
      getD_map_lt _ _ j (by simp [linspace_length]; omega) _ 0,
      linspace_getD _ _ _ hn i hi, linspace_getD _ _ _ hn j hj]
  · intro k hk
    rw [hlev] at hk ⊢
    rw [arange_getD _ _ _ _ hk]
  · intro l hl
    rw [hlev] at hl
    exact arange_mem_lt _ _ _ hstep _ hl
  · rw [hlev, arange_length]

/-- Witness for C4 on a 2-by-2 grid with `sigma_func s t = s + t`, salt limits
`(0, 1)`, temperature limits `(0, 2)`, `dens_interval = 1`: sig is
`[[0, 1], [2, 3]]` and the levels are `0, 1, 2`, below `ceil(3) = 3`. -/
theorem C4_dens_contour_grid_levels_witness :
    2 ≤ 2 ∧ (0 : ℚ) < 1 ∧
    ((draw_dens_contours_teos10 (fun s t => s + t) (0, 1) (0, 2) 2 1 true
        none none).sig.length = 2) ∧
    (∀ l ∈ (draw_dens_contours_teos10 (fun s t => s + t) (0, 1) (0, 2) 2 1 true
        none none).levels,
      l < (⌈listMax (draw_dens_contours_teos10 (fun s t => s + t) (0, 1) (0, 2)
        2 1 true none none).sig.flatten⌉ : ℚ)) := by
  have h := C4_dens_contour_grid_levels (fun s t => s + t) (0, 1) (0, 2)
    none none true 2 1 (by norm_num) (by norm_num)
    (draw_dens_contours_teos10 (fun s t => s + t) (0, 1) (0, 2) 2 1 true
      none none) rfl (0, 1) (0, 2) (by norm_num) (by norm_num)
  exact ⟨by norm_num, by norm_num, h.1, h.2.2.2.2.1⟩

end Xarrayutils
